import Mathlib

/-!
# matiocpp: a shallow embedding of `src/matiocpp/matiocpp.hpp`

The header wraps the C library matio (records of type `matvar_t`, file
contexts of type `mat_t`) in the value types `MatVar`, `Cell`, `Struct`,
`Writer` and `Reader`.

* The library owns every record; a `matvar_t*` is an address into the
  library heap (`World.heap`), `none` being the null pointer.
* Stateful members take the `World` and give back the new `World` next to
  their result; `const` members only read it.
* A C++ exception is the `Except.error` side of the result.
* A `std::size_t` or armadillo `uword` value is a natural number and an
  `int` value is an integer. A conversion into `int` wraps at 32 bits
  (`to_int`, `wrap_int`), a conversion of an `int` into `std::size_t` or
  `uword` wraps at 64 bits (`to_size_t`).
* A `double` is carried as an uninterpreted bit pattern.
-/

namespace matiocpp

/-! ## Values -/

/-- A `double`, carried as its bit pattern: the wrapper copies doubles and never computes on them. -/
structure Dbl where
  bits : Nat
deriving DecidableEq, Repr

/-- An 8-bit `char`; `0` is the terminator of a C string. -/
abbrev Byte := Fin 256

/-- Type `std::string`: any sequence of chars, its size being the length. -/
abbrev std_string := List Byte

/-- Type `arma::vec` (`Col<double>`): `n_elem` is the length. -/
abbrev vec := List Dbl

/-- Type `arma::mat`: extents and the column-major element memory, `n_elem = n_rows * n_cols`. -/
structure mat where
  n_rows : Nat
  n_cols : Nat
  mem : List Dbl
  n_elem_eq : mem.length = n_rows * n_cols

/-- Element access `m(i, j)` of a column-major matrix. -/
def mat.at (m : mat) (i j : Nat) : Option Dbl :=
  m.mem[i + j * m.n_rows]?

/-- The armadillo generator `zeros<mat>(r, c)`. -/
def mat.zeros (r c : Nat) : mat :=
  ⟨r, c, List.replicate (r * c) ⟨0⟩, by simp⟩

/-- The enumeration `matio_classes` of `matio.h`. -/
inductive matio_classes
  | MAT_C_EMPTY | MAT_C_CELL | MAT_C_STRUCT | MAT_C_OBJECT | MAT_C_CHAR
  | MAT_C_SPARSE | MAT_C_DOUBLE | MAT_C_SINGLE | MAT_C_INT8 | MAT_C_UINT8
  | MAT_C_INT16 | MAT_C_UINT16 | MAT_C_INT32 | MAT_C_UINT32 | MAT_C_INT64
  | MAT_C_UINT64 | MAT_C_FUNCTION
deriving DecidableEq, Repr

/-- The enumeration `matio_types` of `matio.h`. -/
inductive matio_types
  | MAT_T_UNKNOWN | MAT_T_INT8 | MAT_T_UINT8 | MAT_T_INT16 | MAT_T_UINT16
  | MAT_T_INT32 | MAT_T_UINT32 | MAT_T_SINGLE | MAT_T_DOUBLE | MAT_T_INT64
  | MAT_T_UINT64 | MAT_T_MATRIX | MAT_T_COMPRESSED | MAT_T_UTF8 | MAT_T_UTF16
  | MAT_T_UTF32 | MAT_T_STRING | MAT_T_CELL | MAT_T_STRUCT | MAT_T_ARRAY
  | MAT_T_FUNCTION
deriving DecidableEq, Repr

/-- A `matvar_t*`: `none` is the null pointer, `some a` the address `a` in the library heap. -/
abbrev Ptr := Option Nat

/-- The memory behind a `void*`: nothing (null), doubles, chars, or record pointers (the slots of a cell or struct array). -/
inductive Buffer
  | null
  | doubles (xs : List Dbl)
  | bytes (xs : List Byte)
  | slots (ps : List Ptr)
deriving DecidableEq, Repr

/-- The first `n` elements of a buffer (what a `memcpy` of `n` elements copies). -/
def Buffer.take (n : Nat) : Buffer → Buffer
  | .null => .null
  | .doubles xs => .doubles (xs.take n)
  | .bytes xs => .bytes (xs.take n)
  | .slots ps => .slots (ps.take n)

/-- The fields of the library record `matvar_t` that the wrapper touches, with the field names kept in `internal`. -/
structure matvar_t where
  name : Option String
  class_type : matio_classes
  data_type : matio_types
  rank : Nat
  dims : List Nat
  isComplex : Bool
  data : Buffer
  fieldnames : List std_string
deriving DecidableEq, Repr

/-- An open-file context `mat_t` of the library, with the number of times `Mat_Close` reached it. -/
structure mat_t where
  filename : String
  writable : Bool
  isOpen : Bool
  closeCalls : Nat
deriving DecidableEq, Repr

/-- The state outside the wrapper: the library heap of records (a freed address holds `none`), the table of file contexts, the files on disk, and the paths that cannot be created. -/
structure World where
  heap : List (Option matvar_t)
  files : List mat_t
  disk : List String
  locked : List String
deriving DecidableEq, Repr

/-- What a member function can end in besides returning: one of the two exception classes of the header, or `fault` for anything else (undefined behaviour such as a read through a dead or foreign pointer, or a failure raised inside another library). -/
inductive Thrown
  | matiocpp_exception (what : String)
  | matiocpp_castexception (what : String)
  | fault
deriving DecidableEq, Repr

deriving instance DecidableEq for Except

/-! ## Machine integers -/

/-- The value an `int` holds after an arithmetic result `z` is stored in it: `z` wrapped into the 32-bit two's complement range. -/
def wrap_int (z : Int) : Int :=
  (z + 2147483648) % 4294967296 - 2147483648

/-- The conversion of a `std::size_t` value into `int`. -/
def to_int (n : Nat) : Int :=
  wrap_int (n : Int)

/-- The conversion of an `int` into `std::size_t` (and into a 64-bit armadillo `uword`): a negative value becomes `2^64` plus the value. -/
def to_size_t (z : Int) : Nat :=
  (z % 18446744073709551616).toNat

/-- The record at address `a`, if that address is live. -/
def World.load (w : World) (a : Nat) : Option matvar_t :=
  (w.heap[a]?).join

/-- Put a fresh record on the library heap and give its address. -/
def World.alloc (w : World) (r : matvar_t) : World × Ptr :=
  ({ w with heap := w.heap ++ [some r] }, some w.heap.length)

/-- Overwrite the record at address `a`. -/
def World.store (w : World) (a : Nat) (r : matvar_t) : World :=
  { w with heap := w.heap.set a (some r) }

/-! ## The external library -/

/-- The flag `MAT_F_COMPLEX` of `matio.h`. -/
def MAT_F_COMPLEX : Nat := 0x0800

/-- Modelled from the spec: the library constructor `Mat_VarCreate` (matio is not part of these sources). A null `dims` is rejected with a null result; otherwise a fresh record carries the given tags, the first `rank` extents and a copy of as many elements of `data` as the extents multiply to. With null `data` a cell record gets that many empty slots. -/
def Mat_VarCreate (w : World) (name : Option String) (class_type : matio_classes)
    (data_type : matio_types) (rank : Nat) (dims : Option (List Nat)) (data : Buffer)
    (opt : Nat) : World × Ptr :=
  match dims with
  | none => (w, none)
  | some ds =>
    let nmemb := (ds.take rank).prod
    let payload : Buffer :=
      match data with
      | .null =>
        if class_type = .MAT_C_CELL ∧ 0 < nmemb then .slots (List.replicate nmemb none) else .null
      | src => if 0 < nmemb then src.take nmemb else .null
    w.alloc
      { name := name, class_type := class_type, data_type := data_type, rank := rank,
        dims := ds.take rank, isComplex := decide (opt &&& MAT_F_COMPLEX ≠ 0),
        data := payload, fieldnames := [] }

/-- Modelled from the spec: the library destructor `Mat_VarFree`; a null argument is ignored, a live record is released. -/
def Mat_VarFree (w : World) (p : Ptr) : World :=
  match p with
  | none => w
  | some a => { w with heap := w.heap.set a none }

/-! ## class MatVar -/

/-- The class `MatVar`: one `matvar_t*`. -/
structure MatVar where
  _matvar : Ptr
deriving DecidableEq, Repr

/-- The constructor `MatVar()`. -/
def MatVar.empty : MatVar := ⟨none⟩

/-- The constructor `MatVar(matvar_t *mt)`. -/
def MatVar.ofPtr (mt : Ptr) : MatVar := ⟨mt⟩

/-- The pointer `v.memptr()` of a vector: null when it has no elements. -/
def vec.memptr (v : vec) : Buffer :=
  if v.isEmpty then .null else .doubles v

/-- The pointer `v.memptr()` of a matrix: null when it has no elements. -/
def mat.memptr (v : mat) : Buffer :=
  if v.mem.isEmpty then .null else .doubles v.mem

/-- The pointer `str.c_str()`: the chars followed by the terminator. -/
def std_string.c_str (str : std_string) : Buffer :=
  .bytes (str ++ [0])

/-- The constructor `MatVar(const vec &v)`. -/
def MatVar.ofVec (w : World) (v : vec) : Except Thrown MatVar × World :=
  let x := vec.memptr v
  let dims : List Nat := [1, v.length]
  let r := Mat_VarCreate w none .MAT_C_DOUBLE .MAT_T_DOUBLE 2 (some dims) x 0
  if r.2.isNone then
    (.error (.matiocpp_exception "can't create mat"), r.1)
  else
    (.ok ⟨r.2⟩, r.1)

/-- The constructor `MatVar(const mat &v)`. -/
def MatVar.ofMat (w : World) (v : mat) : Except Thrown MatVar × World :=
  let x := mat.memptr v
  let dims : List Nat := [v.n_rows, v.n_cols]
  let r := Mat_VarCreate w none .MAT_C_DOUBLE .MAT_T_DOUBLE 2 (some dims) x 0
  if r.2.isNone then
    (.error (.matiocpp_exception "can't create vec"), r.1)
  else
    (.ok ⟨r.2⟩, r.1)

/-- The constructor `MatVar(const std::string &str)`. -/
def MatVar.ofString (w : World) (str : std_string) : Except Thrown MatVar × World :=
  let x := std_string.c_str str
  let dims : List Nat := [1, str.length + 1]
  let r := Mat_VarCreate w none .MAT_C_CHAR .MAT_T_UINT8 2 (some dims) x 0
  if r.2.isNone then
    (.error (.matiocpp_exception "can't create string"), r.1)
  else
    (.ok ⟨r.2⟩, r.1)

/-- The destructor `~MatVar()`: the library is called only when the handle is null. -/
def MatVar.destroy (w : World) (self : MatVar) : World :=
  if self._matvar.isNone then Mat_VarFree w self._matvar else w

/-- The armadillo constructor `vec(data, nelem, true)` after `reinterpret_cast<double*>`, `nelem` being the count as armadillo receives it (a `uword`): a copy of the first `nelem` doubles; a count beyond what the buffer holds is a fault. -/
def vec.copy_aux_mem (data : Buffer) (nelem : Nat) : Except Thrown vec :=
  if nelem = 0 then .ok []
  else
    match data with
    | .doubles xs => if nelem ≤ xs.length then .ok (xs.take nelem) else .error .fault
    | _ => .error .fault

/-- The armadillo constructor `mat(data, nrows, ncols, true)` after `reinterpret_cast<double*>`, the extents being what armadillo receives (two `uword`). -/
def mat.copy_aux_mem (data : Buffer) (nrows ncols : Nat) : Except Thrown mat :=
  if h0 : nrows * ncols = 0 then .ok ⟨nrows, ncols, [], by simp [h0]⟩
  else
    match data with
    | .doubles xs =>
      if h : nrows * ncols ≤ xs.length then
        .ok ⟨nrows, ncols, xs.take (nrows * ncols), by simp [h]⟩
      else .error .fault
    | _ => .error .fault

/-- The constructor `std::string(const char*)` after `reinterpret_cast<char*>`: the chars before the first terminator; a buffer without one is read past its end. -/
def std_string.from_c_str (data : Buffer) : Except Thrown std_string :=
  match data with
  | .bytes xs => if (0 : Byte) ∈ xs then .ok (xs.takeWhile (fun c => c != 0)) else .error .fault
  | _ => .error .fault

/-- The conversion `MatVar::operator vec() const`. -/
def MatVar.toVec (w : World) (self : MatVar) : Except Thrown vec :=
  match self._matvar with
  | none => .error (.matiocpp_castexception "Can't cast not-instantiate")
  | some a =>
    match w.load a with
    | none => .error .fault
    | some r =>
      if r.data_type ≠ .MAT_T_DOUBLE ∧ r.class_type ≠ .MAT_C_DOUBLE then
        .error (.matiocpp_castexception "Cannot be cast to vec: wrong type")
      else if r.isComplex then
        .error (.matiocpp_castexception "Cannot be cast to vec: is complex")
      else if r.rank ≠ 2 ∨ (r.dims.getD 0 0 ≠ 1 ∧ r.dims.getD 1 0 ≠ 1) then
        .error (.matiocpp_castexception "Cannot be cast to vec: wrong rank/dimension")
      else
        let nelem : Int := to_int (r.dims.getD 0 0 * r.dims.getD 1 0)
        vec.copy_aux_mem r.data (to_size_t nelem)

/-- The conversion `MatVar::operator mat() const`. -/
def MatVar.toMat (w : World) (self : MatVar) : Except Thrown mat :=
  match self._matvar with
  | none => .error (.matiocpp_castexception "Can't cast not-instantiate")
  | some a =>
    match w.load a with
    | none => .error .fault
    | some r =>
      if r.data_type ≠ .MAT_T_DOUBLE ∧ r.class_type ≠ .MAT_C_DOUBLE then
        .error (.matiocpp_castexception "Cannot be cast to mat: wrong type")
      else if r.isComplex then
        .error (.matiocpp_castexception "Cannot be cast to mat: is complex")
      else if r.rank ≠ 2 then
        .error (.matiocpp_castexception "Cannot be cast to mat: wrong rank")
      else
        let nrows : Int := to_int (r.dims.getD 0 0)
        let ncols : Int := to_int (r.dims.getD 1 0)
        mat.copy_aux_mem r.data (to_size_t nrows) (to_size_t ncols)

/-- The conversion `MatVar::operator std::string() const`. -/
def MatVar.toString (w : World) (self : MatVar) : Except Thrown std_string :=
  match self._matvar with
  | none => .error (.matiocpp_castexception "Can't cast not-instantiate")
  | some a =>
    match w.load a with
    | none => .error .fault
    | some r =>
      if r.data_type ≠ .MAT_T_UINT8 ∧ r.class_type ≠ .MAT_C_CHAR then
        .error (.matiocpp_castexception "Cannot be cast to string: wrong type")
      else if r.isComplex then
        .error (.matiocpp_castexception "Cannot be cast to string: is complex")
      else if r.rank ≠ 2 ∨ (r.dims.getD 0 0 ≠ 1 ∧ r.dims.getD 1 0 ≠ 1) then
        .error (.matiocpp_castexception "Cannot be cast to string: wrong rank/dimension")
      else
        let _nelem : Int := to_int (r.dims.getD 0 0 * r.dims.getD 1 0)
        std_string.from_c_str r.data

/-- The private member `MatVar::operator->() const`: the address behind the handle, refused for a null handle. -/
def MatVar.arrow (self : MatVar) : Except Thrown Nat :=
  match self._matvar with
  | none => .error (.matiocpp_exception "Cannot dereference null pointer!")
  | some a => .ok a

/-- Reading a field through `mv->field`: `operator->` and then the load, which faults on a dead address. -/
def MatVar.deref (w : World) (self : MatVar) : Except Thrown matvar_t :=
  match self.arrow with
  | .error e => .error e
  | .ok a =>
    match w.load a with
    | none => .error .fault
    | some r => .ok r

/-! ## The external library: cell and struct records -/

/-- Modelled from the spec: the library call `Mat_VarSetCell` (not part of these sources). It puts `cell` in slot `index` of a cell record and gives back what the slot held; a null record, a rank below 1 or an index outside the record changes nothing and gives null. -/
def Mat_VarSetCell (w : World) (matvar : Ptr) (index : Nat) (cell : Ptr) : World × Ptr :=
  match matvar with
  | none => (w, none)
  | some a =>
    match w.load a with
    | none => (w, none)
    | some r =>
      if r.rank < 1 then (w, none)
      else
        match r.data with
        | .slots ps =>
          if index < r.dims.prod ∧ index < ps.length then
            (w.store a { r with data := .slots (ps.set index cell) }, ps.getD index none)
          else (w, none)
        | _ => (w, none)

/-- Modelled from the spec: the library call `Mat_VarGetCell` (not part of these sources): the pointer in slot `index`, null for a null record or an index outside it. -/
def Mat_VarGetCell (w : World) (matvar : Ptr) (index : Nat) : Ptr :=
  match matvar with
  | none => none
  | some a =>
    match w.load a with
    | none => none
    | some r =>
      match r.data with
      | .slots ps => if index < r.dims.prod then ps.getD index none else none
      | _ => none

/-- The loop of `Mat_CalcSingleSubscript` from dimension `i` on, `n` dimensions to go: `none` once a subscript is below 1 or above its extent. -/
def Mat_CalcSingleSubscript.go (dims subs : List Int) : Nat → Nat → Int → Option Int
  | 0, _, index => some index
  | n + 1, i, index =>
    let k := subs.getD i 0
    if k > dims.getD i 0 then none
    else if k < 1 then none
    else Mat_CalcSingleSubscript.go dims subs n (i + 1) (index + (k - 1) * (dims.take i).prod)

/-- Modelled from the spec: the library call `Mat_CalcSingleSubscript` (not part of these sources), the subscript-flattening rule of the format: subscripts count from 1, the first dimension varies fastest, the result counts from 0, and `-1` reports a subscript out of range. -/
def Mat_CalcSingleSubscript (rank : Nat) (dims subs : List Int) : Int :=
  match Mat_CalcSingleSubscript.go dims subs rank 0 0 with
  | some index => index
  | none => -1

/-- The content of a C string handed over as `const char*`: the chars before the first terminator. -/
def c_str_content (s : std_string) : std_string :=
  s.takeWhile (fun c => c != 0)

/-- Modelled from the spec: the library constructor `Mat_VarCreateStruct` (not part of these sources): a struct record with the given extents and a copy of each field name, every (field, element) slot empty. -/
def Mat_VarCreateStruct (w : World) (name : Option String) (rank : Nat)
    (dims : Option (List Nat)) (fields : List std_string) (nfields : Nat) : World × Ptr :=
  match dims with
  | none => (w, none)
  | some ds =>
    let nmemb := (ds.take rank).prod
    let names := (fields.take nfields).map c_str_content
    let payload : Buffer :=
      if 0 < nmemb ∧ 0 < nfields then .slots (List.replicate (nmemb * nfields) none) else .null
    w.alloc
      { name := name, class_type := .MAT_C_STRUCT, data_type := .MAT_T_STRUCT, rank := rank,
        dims := ds.take rank, isComplex := false, data := payload, fieldnames := names }

/-- Modelled from the spec: the library call `Mat_VarGetNumberOfFields` (not part of these sources): the number of fields of a struct record, negative for anything else. -/
def Mat_VarGetNumberOfFields (w : World) (matvar : Ptr) : Int :=
  match matvar with
  | none => -1
  | some a =>
    match w.load a with
    | none => -1
    | some r => if r.class_type = .MAT_C_STRUCT then (r.fieldnames.length : Int) else -1

/-- Modelled from the spec: the library call `Mat_VarGetStructFieldnames` (not part of these sources): the stored field names, null when there are none. -/
def Mat_VarGetStructFieldnames (w : World) (matvar : Ptr) : Option (List std_string) :=
  match matvar with
  | none => none
  | some a =>
    match w.load a with
    | none => none
    | some r =>
      if r.class_type = .MAT_C_STRUCT ∧ r.fieldnames ≠ [] then some r.fieldnames else none

/-- Modelled from the spec: the library call `Mat_VarSetStructFieldByName` (not part of these sources): it puts `field` in the slot of the named field of element `index` and gives back what the slot held; an unknown name or an index outside the record changes nothing and gives null. -/
def Mat_VarSetStructFieldByName (w : World) (matvar : Ptr) (field_name : std_string)
    (index : Nat) (field : Ptr) : World × Ptr :=
  match matvar with
  | none => (w, none)
  | some a =>
    match w.load a with
    | none => (w, none)
    | some r =>
      match r.data with
      | .slots ps =>
        let nfields := r.fieldnames.length
        let field_index := r.fieldnames.indexOf (c_str_content field_name)
        if r.class_type = .MAT_C_STRUCT ∧ index < r.dims.prod ∧ field_index < nfields then
          (w.store a { r with data := .slots (ps.set (index * nfields + field_index) field) },
            ps.getD (index * nfields + field_index) none)
        else (w, none)
      | _ => (w, none)

/-- Modelled from the spec: the library call `Mat_VarGetStructFieldByName` (not part of these sources): the pointer in the slot of the named field of element `index`, null when there is none. -/
def Mat_VarGetStructFieldByName (w : World) (matvar : Ptr) (field_name : std_string)
    (index : Nat) : Ptr :=
  match matvar with
  | none => none
  | some a =>
    match w.load a with
    | none => none
    | some r =>
      match r.data with
      | .slots ps =>
        let nfields := r.fieldnames.length
        let field_index := r.fieldnames.indexOf (c_str_content field_name)
        if r.class_type = .MAT_C_STRUCT ∧ index < r.dims.prod ∧ field_index < nfields then
          ps.getD (index * nfields + field_index) none
        else none
      | _ => none

/-! ## class Cell -/

/-- The class `Cell`; the members `_ndims`, `_idims` and `_nelem` are `int` values. -/
structure Cell where
  _mptr : MatVar
  _ndims : Int
  _idims : List Int
  _nelem : Int
  _dims : List Nat
deriving DecidableEq, Repr

/-- The pointer `&dims[0]` of a `std::vector`: null when the vector owns no storage. -/
def vector_data (dims : List Nat) : Option (List Nat) :=
  if dims.isEmpty then none else some dims

/-- The fill loop of the shape constructor: `Mat_VarSetCell(_mptr, i, mv)` for every `std::size_t i` below `_nelem`, the returned pointer dropped. -/
def Cell.fill_loop (w : World) (_mptr mv : MatVar) (_nelem : Int) : World :=
  (List.range (to_size_t _nelem)).foldl
    (fun w i => (Mat_VarSetCell w _mptr._matvar i mv._matvar).1) w

/-- The constructor `Cell(const std::vector<std::size_t> &dims, bool fill = true)`. The length of `dims` is stored in the `int` member `_ndims`, each extent is stored in the `Col<int>` member `_idims`, and `_nelem` is the `int` product of those. A negative `_ndims` makes `zeros<Col<int> >(_ndims)` ask armadillo for more than `2^63` elements, which fails inside armadillo. -/
def Cell.new (w : World) (dims : List Nat) (fill : Bool) : Except Thrown Cell × World :=
  let _ndims : Int := to_int dims.length
  let d := vector_data dims
  if _ndims < 0 then
    (.error .fault, w)
  else
    let _idims : List Int :=
      (List.range (to_size_t _ndims)).map (fun i => to_int (dims.getD i 0))
    let _nelem : Int := wrap_int _idims.prod
    let r := Mat_VarCreate w none .MAT_C_CELL .MAT_T_CELL _ndims.toNat d .null 0
    if r.2.isNone then
      (.error (.matiocpp_exception "Failed to create cell"), r.1)
    else
      let _mptr := MatVar.ofPtr r.2
      let w1 := MatVar.destroy r.1 (MatVar.ofPtr r.2)
      let self : Cell :=
        { _mptr := _mptr, _ndims := _ndims, _idims := _idims, _nelem := _nelem, _dims := dims }
      if fill then
        let zz := mat.zeros 0 0
        match MatVar.ofMat w1 zz with
        | (.error e, w2) => (.error e, w2)
        | (.ok mv, w2) =>
          let w3 := Cell.fill_loop w2 _mptr mv _nelem
          (.ok self, MatVar.destroy w3 mv)
      else
        (.ok self, w1)

/-- The constructor `Cell(MatVar &ptr)`. It assigns every member but `_nelem`; `indeterminate` is what that `int` member then holds. -/
def Cell.ofMatVar (w : World) (ptr : MatVar) (indeterminate : Int) : Except Thrown Cell :=
  match ptr.deref w with
  | .error e => .error e
  | .ok r =>
    if r.data_type ≠ .MAT_T_CELL ∨ r.class_type ≠ .MAT_C_CELL then
      .error (.matiocpp_castexception "Cannot be cast to cell")
    else
      let _ndims : Int := (r.rank : Int)
      let ds := (List.range (to_size_t _ndims)).map (fun i => r.dims.getD i 0)
      .ok { _mptr := ptr, _ndims := _ndims, _idims := ds.map to_int, _nelem := indeterminate,
            _dims := ds }

/-- The member `void Cell::set(const std::size_t i, const MatVar &v)`; in `i >= _nelem` the `int` is converted to `std::size_t`. -/
def Cell.set (w : World) (self : Cell) (i : Nat) (v : MatVar) : Except Thrown Unit × World :=
  if i ≥ to_size_t self._nelem then
    (.error (.matiocpp_exception "Out of bounds"), w)
  else
    let mv : MatVar := v
    let r := Mat_VarSetCell w self._mptr._matvar i mv._matvar
    if r.2.isNone then
      (.error (.matiocpp_exception "could not set cell"), MatVar.destroy r.1 mv)
    else
      (.ok (), MatVar.destroy r.1 mv)

/-- The member `MatVar Cell::get(const std::size_t i)`; in `i >= _nelem` the `int` is converted to `std::size_t`. -/
def Cell.get (w : World) (self : Cell) (i : Nat) : Except Thrown MatVar :=
  if i ≥ to_size_t self._nelem then
    .error (.matiocpp_exception "Out of bounds")
  else
    let m := Mat_VarGetCell w self._mptr._matvar i
    if m.isNone then
      .error (.matiocpp_exception "could not get cell")
    else
      .ok (MatVar.ofPtr m)

/-- The member `void Cell::set(const Col<int> &idx, const MatVar &v)`: it computes `iii` and then calls `set(idx, v)`, which is this same overload. Each call costs one unit of `fuel`; `none` is a call chain still running when the fuel is gone. -/
def Cell.set_idx : Nat → World → Cell → List Int → MatVar → Option (Except Thrown Unit × World)
  | 0, _, _, _, _ => none
  | fuel + 1, w, self, idx, v =>
    let i := self._idims
    let ii := idx
    let _iii := Mat_CalcSingleSubscript self._ndims.toNat i ii
    Cell.set_idx fuel w self idx v

/-- The member `MatVar Cell::get(const Col<int> &idx)`: it computes `iii` and then calls `get(idx)`, which is this same overload. -/
def Cell.get_idx : Nat → World → Cell → List Int → Option (Except Thrown MatVar)
  | 0, _, _, _ => none
  | fuel + 1, w, self, idx =>
    let i := self._idims
    let ii := idx
    let _iii := Mat_CalcSingleSubscript self._ndims.toNat i ii
    Cell.get_idx fuel w self idx

/-- The member `int Cell::nelems() const`. -/
def Cell.nelems (self : Cell) : Int := self._nelem

/-- The member `int Cell::ndims() const`. -/
def Cell.ndims (self : Cell) : Int := self._ndims

/-- The conversion `Cell::operator MatVar() const`. -/
def Cell.toMatVar (self : Cell) : MatVar := self._mptr

/-- The conversion `MatVar::operator Cell() const`. -/
def MatVar.toCell (w : World) (self : MatVar) (indeterminate : Int) : Except Thrown Cell :=
  let mv := MatVar.ofPtr self._matvar
  Cell.ofMatVar w mv indeterminate

/-! ## class Struct -/

/-- The class `Struct`; the members `_ndims`, `_idims` and `_nelem` are `int` values, and `_nfields` is carried as the number of field names. -/
structure Struct where
  _mptr : MatVar
  _dims : List Nat
  _ndims : Int
  _nelem : Int
  _idims : List Int
  _fields : List std_string
  _nfields : Nat
deriving DecidableEq, Repr

/-- The constructor `Struct(const std::vector<std::size_t> &dims, const std::vector<std::string> &fields)`. The member `_dims` is left empty; `_ndims`, `_idims` and `_nelem` are narrowed as in `Cell.new`. -/
def Struct.new (w : World) (dims : List Nat) (fields : List std_string) :
    Except Thrown Struct × World :=
  let d := vector_data dims
  let _ndims : Int := to_int dims.length
  if _ndims < 0 then
    (.error .fault, w)
  else
    let _idims : List Int :=
      (List.range (to_size_t _ndims)).map (fun i => to_int (dims.getD i 0))
    let _nelem : Int := wrap_int _idims.prod
    let _nfields := fields.length
    let carr := (List.range _nfields).map (fun i => fields.getD i [])
    let r := Mat_VarCreateStruct w none _ndims.toNat d carr _nfields
    if r.2.isNone then
      (.error (.matiocpp_exception "Cant create struct"), r.1)
    else
      (.ok { _mptr := MatVar.ofPtr r.2, _dims := [], _ndims := _ndims, _nelem := _nelem,
             _idims := _idims, _fields := fields, _nfields := _nfields },
        MatVar.destroy r.1 (MatVar.ofPtr r.2))

/-- The constructor `Struct(MatVar &mv)`. -/
def Struct.ofMatVar (w : World) (mv : MatVar) : Except Thrown Struct :=
  match mv.deref w with
  | .error e => .error e
  | .ok r =>
    if r.data_type ≠ .MAT_T_STRUCT ∨ r.class_type ≠ .MAT_C_STRUCT then
      .error (.matiocpp_castexception "Cannot be cast to struct")
    else
      let _ndims : Int := (r.rank : Int)
      let ds := (List.range (to_size_t _ndims)).map (fun i => r.dims.getD i 0)
      let _idims : List Int := ds.map to_int
      let _nelem : Int := wrap_int _idims.prod
      let _nfields := Mat_VarGetNumberOfFields w mv._matvar
      if _nfields < 0 then
        .error (.matiocpp_exception "Cant get number of fields")
      else
        match Mat_VarGetStructFieldnames w mv._matvar with
        | none => .error (.matiocpp_exception "Cannot get fieldnames")
        | some nams =>
          .ok { _mptr := mv, _dims := ds, _ndims := _ndims, _nelem := _nelem, _idims := _idims,
                _fields := (List.range _nfields.toNat).map (fun i => nams.getD i []),
                _nfields := _nfields.toNat }

/-- The member `bool Struct::hasfield(const char *nam) const`; `nam == _fields[i]` compares the C string `nam` with the whole of `_fields[i]`. -/
def Struct.hasfield (self : Struct) (nam : std_string) : Bool :=
  (List.range self._nfields).any (fun i => c_str_content nam == self._fields.getD i [])

/-- The member `int Struct::nelems() const`. -/
def Struct.nelems (self : Struct) : Int := self._nelem

/-- The member `int Struct::nfields() const`. -/
def Struct.nfields (self : Struct) : Nat := self._nfields

/-- The member `std::vector<std::string> Struct::fields() const`. -/
def Struct.fields (self : Struct) : List std_string := self._fields

/-- The member `void Struct::set(const char *nam, const std::size_t i, const MatVar &v)`; in `i >= _nelem` the `int` is converted to `std::size_t`, and the pointer the library returns is dropped. -/
def Struct.set (w : World) (self : Struct) (nam : std_string) (i : Nat) (v : MatVar) :
    Except Thrown Unit × World :=
  if i ≥ to_size_t self._nelem then
    (.error (.matiocpp_exception "Out of bounds"), w)
  else
    let r := Mat_VarSetStructFieldByName w self._mptr._matvar nam i v._matvar
    (.ok (), r.1)

/-- The member `MatVar Struct::get(const char *nam, const std::size_t i)`. -/
def Struct.get (w : World) (self : Struct) (nam : std_string) (i : Nat) : Except Thrown MatVar :=
  if i ≥ to_size_t self._nelem then
    .error (.matiocpp_exception "Out of bounds")
  else
    let m := Mat_VarGetStructFieldByName w self._mptr._matvar nam i
    if m.isNone then
      .error (.matiocpp_exception "No such field")
    else
      .ok (MatVar.ofPtr m)

/-- The conversion `Struct::operator MatVar() const`. -/
def Struct.toMatVar (self : Struct) : MatVar := self._mptr

/-- The conversion `MatVar::operator Struct() const`. -/
def MatVar.toStruct (w : World) (self : MatVar) : Except Thrown Struct :=
  let mv := MatVar.ofPtr self._matvar
  Struct.ofMatVar w mv

/-! ## class Writer, class Reader -/

/-- A `mat_t*`: `none` is the null pointer, `some h` the entry `h` of the table of file contexts. -/
abbrev FilePtr := Option Nat

/-- The enumeration `mat_ft` of `matio.h`; `MAT_FT_DEFAULT` is `MAT_FT_MAT5`. -/
inductive mat_ft
  | MAT_FT_MAT4 | MAT_FT_MAT5 | MAT_FT_MAT73
deriving DecidableEq, Repr

/-- The default on-disk format `MAT_FT_DEFAULT`. -/
def MAT_FT_DEFAULT : mat_ft := .MAT_FT_MAT5

/-- Modelled from the spec: the library call `Mat_CreateVer` (not part of these sources): it creates the file and gives an open context for writing, or null when the target cannot be created. -/
def Mat_CreateVer (w : World) (matname : String) (_hdr_str : Option String) (_mat_file_ver : mat_ft) :
    World × FilePtr :=
  if matname ∈ w.locked then (w, none)
  else
    ({ w with files := w.files ++ [⟨matname, true, true, 0⟩], disk := matname :: w.disk },
      some w.files.length)

/-- Modelled from the spec: the library call `Mat_Open` with `MAT_ACC_RDONLY` (not part of these sources): an open context for reading, or null when there is no such file. -/
def Mat_Open (w : World) (matname : String) : World × FilePtr :=
  if matname ∈ w.disk then
    ({ w with files := w.files ++ [⟨matname, false, true, 0⟩] }, some w.files.length)
  else (w, none)

/-- Modelled from the spec: the library call `Mat_Close` (not part of these sources): it closes the context behind a non-null pointer; a null pointer is ignored. -/
def Mat_Close (w : World) (mat : FilePtr) : World :=
  match mat with
  | none => w
  | some h =>
    match w.files[h]? with
    | none => w
    | some f =>
      { w with files := w.files.set h { f with isOpen := false, closeCalls := f.closeCalls + 1 } }

/-- The class `Writer`: one `mat_t*`. -/
structure Writer where
  _matfp : FilePtr
deriving DecidableEq, Repr

/-- The constructor `Writer(const char *name, const char *hdr = NULL, mat_ft fmt = MAT_FT_DEFAULT)`. -/
def Writer.new (w : World) (name : String) (hdr : Option String) (fmt : mat_ft) :
    Except Thrown Writer × World :=
  let r := Mat_CreateVer w name hdr fmt
  if r.2.isNone then
    (.error (.matiocpp_exception "Could not open file"), r.1)
  else
    (.ok ⟨r.2⟩, r.1)

/-- The destructor `~Writer()`: `Mat_Close` is called only when the handle is null. -/
def Writer.destroy (w : World) (self : Writer) : World :=
  if self._matfp.isNone then Mat_Close w self._matfp else w

/-- The class `Reader`: one `mat_t*`. -/
structure Reader where
  _matfp : FilePtr
deriving DecidableEq, Repr

/-- The constructor `Reader(const char *name)`. -/
def Reader.new (w : World) (name : String) : Except Thrown Reader × World :=
  let r := Mat_Open w name
  if r.2.isNone then
    (.error (.matiocpp_exception "Could not open file"), r.1)
  else
    (.ok ⟨r.2⟩, r.1)

/-- The destructor `~Reader()`: `Mat_Close` is called only when the handle is null. -/
def Reader.destroy (w : World) (self : Reader) : World :=
  if self._matfp.isNone then Mat_Close w self._matfp else w

/-- Whether the file context behind a pointer is open. -/
def World.isOpen (w : World) (fp : FilePtr) : Bool :=
  match fp with
  | none => false
  | some h => (w.files[h]?).any (fun f => f.isOpen)

/-- How many times `Mat_Close` has reached the file context behind a pointer. -/
def World.closeCalls (w : World) (fp : FilePtr) : Nat :=
  match fp with
  | none => 0
  | some h => ((w.files[h]?).map (fun f => f.closeCalls)).getD 0

/-! ## Concrete inputs -/

/-- A world with nothing on the heap, no file context, an empty disk and no locked path. -/
def World.init : World := ⟨[], [], [], []⟩

/-- The text `hello` as chars. -/
def hello : std_string := [104, 101, 108, 108, 111]

/-- The three chars `a`, terminator, `b`: a `std::string` of size 3. -/
def a_nul_b : std_string := [97, 0, 98]

/-- The world after `Mat_VarCreate(NULL, MAT_C_SINGLE, MAT_T_DOUBLE, 2, {1, 2}, x, 0)` on two doubles: one record, class tag single precision, storage tag double precision. -/
def single_class_world : World :=
  (Mat_VarCreate World.init none .MAT_C_SINGLE .MAT_T_DOUBLE 2 (some [1, 2])
    (.doubles [⟨1⟩, ⟨2⟩]) 0).1

/-- The world after `Mat_VarCreate(NULL, MAT_C_DOUBLE, MAT_T_UINT8, 2, {1, 2}, x, 0)` on two chars: one record, class tag double precision, storage tag 8-bit integer. -/
def byte_storage_world : World :=
  (Mat_VarCreate World.init none .MAT_C_DOUBLE .MAT_T_UINT8 2 (some [1, 2])
    (.bytes [1, 2]) 0).1

/-- The world after `Cell c({1, 1})`: the cell record at address 0, its one slot holding the placeholder at address 1. -/
def one_slot_world : World :=
  (Cell.new World.init [1, 1] true).2

/-- What `Cell(MatVar&)` builds from the record at address 0 of `one_slot_world` when the unassigned member `_nelem` holds 7. -/
def one_slot_recast : Cell :=
  { _mptr := ⟨some 0⟩, _ndims := 2, _idims := [1, 1], _nelem := 7, _dims := [1, 1] }

/-- The world after `Cell c({2, 3})`. -/
def two_by_three_world : World :=
  (Cell.new World.init [2, 3] true).2

/-- The container `Cell c({2, 3})`. -/
def two_by_three : Cell :=
  { _mptr := ⟨some 0⟩, _ndims := 2, _idims := [2, 3], _nelem := 6, _dims := [2, 3] }

/-- Whether a handle points at a live empty placeholder: a real double-precision record of rank 2 with extents 0 by 0 and no data. -/
def MatVar.is_empty_placeholder (w : World) (mv : MatVar) : Bool :=
  match mv._matvar with
  | none => false
  | some a =>
    match w.load a with
    | none => false
    | some r =>
      decide (r.class_type = .MAT_C_DOUBLE ∧ r.data_type = .MAT_T_DOUBLE ∧ r.isComplex = false ∧
        r.rank = 2 ∧ r.dims = [0, 0] ∧ r.data = .null)

/-- A world whose heap is `H`, then the record `r` with the slots `ps`, then `rest`. -/
def World.with_slots (w0 : World) (H : List (Option matvar_t)) (r : matvar_t)
    (rest : List (Option matvar_t)) (ps : List Ptr) : World :=
  { w0 with heap := H ++ some { r with data := .slots ps } :: rest }

/-- The record `Mat_VarCreate` makes for `zeros<mat>(0, 0)`. -/
def placeholder_record : matvar_t :=
  { name := none, class_type := .MAT_C_DOUBLE, data_type := .MAT_T_DOUBLE, rank := 2,
    dims := [0, 0], isComplex := false, data := .null, fieldnames := [] }

/-- The cell record of shape `dims` with the slots `ps`. -/
def cell_record (dims : List Nat) (ps : List Ptr) : matvar_t :=
  { name := none, class_type := .MAT_C_CELL, data_type := .MAT_T_CELL, rank := dims.length,
    dims := dims, isComplex := false, data := .slots ps, fieldnames := [] }

/-- The world after `Writer wr("out.mat")`: one file context, for writing. -/
def out_mat_world : World :=
  (Writer.new World.init "out.mat" none MAT_FT_DEFAULT).2

/-- The world after `Writer wr("out.mat")` and then `Reader rd("out.mat")`: two file contexts. -/
def out_mat_read_world : World :=
  (Reader.new out_mat_world "out.mat").2

/-- The field-name list `{"ab", "c"}`. -/
def ab_c_fields : List std_string := [[97, 98], [99]]

/-- The container `Struct s({1, 1}, {"ab", "c"})`. -/
def ab_c_struct : Struct :=
  { _mptr := ⟨some 0⟩, _dims := [], _ndims := 2, _nelem := 1, _idims := [1, 1],
    _fields := ab_c_fields, _nfields := 2 }

/-- A vector of `2^32` doubles. -/
def big_vec : vec := List.replicate 4294967296 ⟨0⟩

/-- A vector of `2^31` doubles. -/
def half_vec : vec := List.replicate 2147483648 ⟨0⟩

/-- The vector `{1, 2, 3}`. -/
def vec_123 : vec := [⟨1⟩, ⟨2⟩, ⟨3⟩]

/-- The matrix with `2^32` rows and no column, which has no element. -/
def wide_empty_mat : mat := ⟨4294967296, 0, [], by simp⟩

/-- The matrix with `2^31` rows and no column, which has no element. -/
def half_empty_mat : mat := ⟨2147483648, 0, [], by simp⟩

/-- A matrix with 2 rows and 3 columns. -/
def mat_2x3 : mat := ⟨2, 3, [⟨1⟩, ⟨2⟩, ⟨3⟩, ⟨4⟩, ⟨5⟩, ⟨6⟩], by simp⟩

/-- What `Cell c({4294967296, 1})` builds: the first extent is stored as the `int` 0, and so is the element count. -/
def wrapped_extent_cell : Cell :=
  { _mptr := ⟨some 0⟩, _ndims := 2, _idims := [0, 1], _nelem := 0, _dims := [4294967296, 1] }

/-- A shape of `2^32 + 1` extents, each of them 1. -/
def long_shape : List Nat := List.replicate 4294967297 1

/-- What `Cell c(long_shape)` builds: the number of extents is stored as the `int` 1. -/
def wrapped_rank_cell : Cell :=
  { _mptr := ⟨some 0⟩, _ndims := 1, _idims := [1], _nelem := 1, _dims := long_shape }

/-! ## Facts about machine integers -/

theorem to_int_of_lt (n : Nat) (h : n < 2147483648) : to_int n = (n : Int) := by
  unfold to_int wrap_int
  omega

theorem to_size_t_of_nat (n : Nat) (h : n < 18446744073709551616) : to_size_t (n : Int) = n := by
  unfold to_size_t
  omega

theorem to_size_t_to_int (n : Nat) (h : n < 2147483648) : to_size_t (to_int n) = n := by
  rw [to_int_of_lt n h]
  exact to_size_t_of_nat n (by omega)

theorem wrap_int_congr (x y : Int) (h : x % 4294967296 = y % 4294967296) :
    wrap_int x = wrap_int y := by
  unfold wrap_int
  omega

theorem wrap_int_of_range (z : Int) (h0 : 0 ≤ z) (h : z < 2147483648) : wrap_int z = z := by
  unfold wrap_int
  omega

/-! ## Facts about the library heap -/

theorem World.load_alloc (w : World) (r : matvar_t) :
    (w.alloc r).1.load w.heap.length = some r := by
  simp [World.alloc, World.load]

theorem World.alloc_ptr (w : World) (r : matvar_t) :
    (w.alloc r).2 = some w.heap.length := rfl

theorem Mat_VarFree_null (w : World) : Mat_VarFree w none = w := rfl

theorem MatVar.destroy_eq (w : World) (mv : MatVar) : MatVar.destroy w mv = w := by
  unfold MatVar.destroy
  cases h : mv._matvar <;> simp [Mat_VarFree]

/-! ## Round trips through a record -/

theorem MatVar.ofVec_handle (w : World) (v : vec) :
    (MatVar.ofVec w v).1 = .ok ⟨some w.heap.length⟩ := by
  simp [MatVar.ofVec, Mat_VarCreate, World.alloc]

theorem MatVar.toVec_ofVec (w : World) (v : vec) :
    MatVar.toVec (MatVar.ofVec w v).2 ⟨some w.heap.length⟩ =
      vec.copy_aux_mem (vec.memptr v) (to_size_t (to_int v.length)) := by
  cases v with
  | nil =>
    simp [MatVar.ofVec, Mat_VarCreate, MatVar.toVec, World.alloc, World.load, vec.memptr,
      MAT_F_COMPLEX]
  | cons a t =>
    simp [MatVar.ofVec, Mat_VarCreate, MatVar.toVec, World.alloc, World.load, vec.memptr,
      MAT_F_COMPLEX, Buffer.take]

/-- C1, as the code has it: a `MatVar` built from a real vector `v` of fewer than `2^31` elements converts back with `operator vec` to a vector of the same length with the same element at every index. -/
theorem MatVar.vec_roundtrip (w : World) (v : vec) (h : v.length < 2147483648) :
    ∃ mv x, (MatVar.ofVec w v).1 = .ok mv ∧
      MatVar.toVec (MatVar.ofVec w v).2 mv = .ok x ∧
      x.length = v.length ∧ ∀ i : Nat, x[i]? = v[i]? := by
  refine ⟨⟨some w.heap.length⟩, v, MatVar.ofVec_handle w v, ?_, rfl, fun _ => rfl⟩
  rw [MatVar.toVec_ofVec, to_size_t_to_int v.length h]
  cases v with
  | nil => simp [vec.copy_aux_mem]
  | cons a t => simp [vec.copy_aux_mem, vec.memptr]

/-- C1 at the vector `{1, 2, 3}`. -/
theorem MatVar.vec_roundtrip_123 :
    vec_123.length < 2147483648 ∧
    ∃ mv x, (MatVar.ofVec World.init vec_123).1 = .ok mv ∧
      MatVar.toVec (MatVar.ofVec World.init vec_123).2 mv = .ok x ∧
      x.length = vec_123.length ∧ ∀ i : Nat, x[i]? = vec_123[i]? :=
  ⟨by decide, MatVar.vec_roundtrip World.init vec_123 (by decide)⟩

theorem vec.memptr_of_length_pos (v : vec) (h : 0 < v.length) : vec.memptr v = .doubles v := by
  cases v with
  | nil => exact absurd h (by decide)
  | cons a t => rfl

/-- C1 fails at a vector of `2^32` doubles: the record keeps all of them, `int nelem` holds 0, and `operator vec` returns the empty vector. It fails from `2^31` doubles on: there `int nelem` is negative, armadillo is asked for `2^64 - 2^31` elements, and nothing is returned. -/
theorem MatVar.vec_roundtrip_wraps :
    (MatVar.ofVec World.init big_vec).1 = .ok ⟨some 0⟩ ∧
    MatVar.toVec (MatVar.ofVec World.init big_vec).2 ⟨some 0⟩ = .ok [] ∧
    big_vec.length = 4294967296 ∧
    MatVar.toVec (MatVar.ofVec World.init big_vec).2 ⟨some 0⟩ ≠ .ok big_vec ∧
    (MatVar.ofVec World.init half_vec).1 = .ok ⟨some 0⟩ ∧
    MatVar.toVec (MatVar.ofVec World.init half_vec).2 ⟨some 0⟩ = .error .fault ∧
    half_vec.length = 2147483648 := by
  have hlen : big_vec.length = 4294967296 := by
    unfold big_vec
    rw [List.length_replicate]
  have hlen2 : half_vec.length = 2147483648 := by
    unfold half_vec
    rw [List.length_replicate]
  have hz : to_size_t (to_int 4294967296) = 0 := by decide
  have hz2 : to_size_t (to_int 2147483648) = 18446744071562067968 := by decide
  have hr : MatVar.toVec (MatVar.ofVec World.init big_vec).2 ⟨some 0⟩ = .ok [] := by
    have e := MatVar.toVec_ofVec World.init big_vec
    rw [hlen, hz] at e
    rw [show (⟨some 0⟩ : MatVar) = ⟨some World.init.heap.length⟩ from rfl, e]
    simp [vec.copy_aux_mem]
  have hr2 : MatVar.toVec (MatVar.ofVec World.init half_vec).2 ⟨some 0⟩ = .error .fault := by
    have e := MatVar.toVec_ofVec World.init half_vec
    rw [hlen2, hz2, vec.memptr_of_length_pos half_vec (by rw [hlen2]; decide)] at e
    rw [show (⟨some 0⟩ : MatVar) = ⟨some World.init.heap.length⟩ from rfl, e]
    unfold vec.copy_aux_mem
    rw [if_neg (by decide)]
    simp only [hlen2]
    rw [if_neg (by decide)]
  refine ⟨MatVar.ofVec_handle World.init big_vec, hr, hlen, ?_,
    MatVar.ofVec_handle World.init half_vec, hr2, hlen2⟩
  rw [hr]
  intro e
  have e2 : ([] : vec).length = big_vec.length := by
    rw [Except.ok.inj e]
  rw [hlen] at e2
  exact absurd e2 (by decide)

theorem MatVar.ofMat_handle (w : World) (m : mat) :
    (MatVar.ofMat w m).1 = .ok ⟨some w.heap.length⟩ := by
  simp [MatVar.ofMat, Mat_VarCreate, World.alloc]

theorem MatVar.toMat_ofMat (w : World) (m : mat) :
    MatVar.toMat (MatVar.ofMat w m).2 ⟨some w.heap.length⟩ =
      mat.copy_aux_mem (mat.memptr m) (to_size_t (to_int m.n_rows))
        (to_size_t (to_int m.n_cols)) := by
  obtain ⟨r, c, mem, h⟩ := m
  cases mem with
  | nil =>
    simp [MatVar.ofMat, Mat_VarCreate, MatVar.toMat, World.alloc, World.load, mat.memptr,
      MAT_F_COMPLEX]
  | cons a t =>
    have hpos : 0 < r * c := by rw [← h]; simp
    simp [MatVar.ofMat, Mat_VarCreate, MatVar.toMat, World.alloc, World.load, mat.memptr,
      MAT_F_COMPLEX, Buffer.take, hpos, ← h]

/-- C2, as the code has it: a `MatVar` built from a real matrix `m` with fewer than `2^31` rows and fewer than `2^31` columns converts back with `operator mat` to a matrix with the same row and column extents and the same element at every position. -/
theorem MatVar.mat_roundtrip (w : World) (m : mat) (hr : m.n_rows < 2147483648)
    (hc : m.n_cols < 2147483648) :
    ∃ mv x, (MatVar.ofMat w m).1 = .ok mv ∧
      MatVar.toMat (MatVar.ofMat w m).2 mv = .ok x ∧
      x.n_rows = m.n_rows ∧ x.n_cols = m.n_cols ∧ ∀ i j : Nat, x.at i j = m.at i j := by
  refine ⟨⟨some w.heap.length⟩, m, MatVar.ofMat_handle w m, ?_, rfl, rfl, fun _ _ => rfl⟩
  rw [MatVar.toMat_ofMat, to_size_t_to_int m.n_rows hr, to_size_t_to_int m.n_cols hc]
  obtain ⟨r, c, mem, h⟩ := m
  cases mem with
  | nil =>
    have h0 : r * c = 0 := by simpa using h.symm
    simp [mat.memptr, mat.copy_aux_mem, h0]
  | cons a t =>
    have hpos : 0 < r * c := by rw [← h]; simp
    have hne : r * c ≠ 0 := Nat.pos_iff_ne_zero.mp hpos
    simp [mat.memptr, mat.copy_aux_mem, hne, ← h]

/-- C2 at a matrix with 2 rows and 3 columns. -/
theorem MatVar.mat_roundtrip_2x3 :
    mat_2x3.n_rows < 2147483648 ∧ mat_2x3.n_cols < 2147483648 ∧
    ∃ mv x, (MatVar.ofMat World.init mat_2x3).1 = .ok mv ∧
      MatVar.toMat (MatVar.ofMat World.init mat_2x3).2 mv = .ok x ∧
      x.n_rows = mat_2x3.n_rows ∧ x.n_cols = mat_2x3.n_cols ∧
      ∀ i j : Nat, x.at i j = mat_2x3.at i j :=
  ⟨by decide, by decide, MatVar.mat_roundtrip World.init mat_2x3 (by decide) (by decide)⟩

/-- C2 fails at the matrix with `2^32` rows and no column: `int nrows` holds 0 and `operator mat` returns a matrix with no row. It fails from `2^31` rows on: there `int nrows` is negative and the matrix returned has `2^64 - 2^31` rows. -/
theorem MatVar.mat_roundtrip_wraps :
    (MatVar.ofMat World.init wide_empty_mat).1 = .ok ⟨some 0⟩ ∧
    MatVar.toMat (MatVar.ofMat World.init wide_empty_mat).2 ⟨some 0⟩ = .ok (mat.zeros 0 0) ∧
    (mat.zeros 0 0).n_rows = 0 ∧ wide_empty_mat.n_rows = 4294967296 ∧
    (MatVar.ofMat World.init half_empty_mat).1 = .ok ⟨some 0⟩ ∧
    MatVar.toMat (MatVar.ofMat World.init half_empty_mat).2 ⟨some 0⟩ =
      .ok (mat.zeros 18446744071562067968 0) ∧
    (mat.zeros 18446744071562067968 0).n_rows = 18446744071562067968 ∧
    half_empty_mat.n_rows = 2147483648 := by
  have hz : to_size_t (to_int 4294967296) = 0 := by decide
  have hz2 : to_size_t (to_int 2147483648) = 18446744071562067968 := by decide
  have h0 : to_size_t (to_int 0) = 0 := by decide
  refine ⟨MatVar.ofMat_handle World.init wide_empty_mat, ?_, rfl, rfl,
    MatVar.ofMat_handle World.init half_empty_mat, ?_, rfl, rfl⟩
  · have e := MatVar.toMat_ofMat World.init wide_empty_mat
    rw [show (⟨some 0⟩ : MatVar) = ⟨some World.init.heap.length⟩ from rfl, e]
    simp [wide_empty_mat, hz, h0, mat.copy_aux_mem, mat.zeros]
  · have e := MatVar.toMat_ofMat World.init half_empty_mat
    rw [show (⟨some 0⟩ : MatVar) = ⟨some World.init.heap.length⟩ from rfl, e]
    simp [half_empty_mat, hz2, h0, mat.copy_aux_mem, mat.zeros]

/-! ## Text -/

theorem takeWhile_terminated (s : std_string) (h : (0 : Byte) ∉ s) :
    (s ++ [0]).takeWhile (fun c => c != 0) = s := by
  induction s with
  | nil => simp [List.takeWhile]
  | cons a t ih =>
    have ha : a ≠ 0 := fun e => h (by simp [e])
    have ht : (0 : Byte) ∉ t := fun e => h (by simp [e])
    have hb : (a != 0) = true := by simp [ha]
    simp [List.takeWhile, hb, ih ht]

theorem takeWhile_append_terminator (s : std_string) :
    (s ++ [0]).takeWhile (fun c => c != 0) = s.takeWhile (fun c => c != 0) := by
  induction s with
  | nil => simp [List.takeWhile]
  | cons a t ih =>
    by_cases ha : a = 0
    · simp [List.takeWhile, ha]
    · have hb : (a != 0) = true := by simp [ha]
      simp [List.takeWhile, hb, ih]

/-- C3, as the code has it: a `MatVar` built from any text `s` converts back with `operator std::string` to the chars of `s` that come before its first terminator char; for a text that holds no terminator char this is exactly `s`. -/
theorem MatVar.string_roundtrip (w : World) (s : std_string) :
    ∃ mv, (MatVar.ofString w s).1 = .ok mv ∧
      MatVar.toString (MatVar.ofString w s).2 mv = .ok (s.takeWhile (fun c => c != 0)) ∧
      ((0 : Byte) ∉ s → MatVar.toString (MatVar.ofString w s).2 mv = .ok s) := by
  have ht : List.take (s.length + 1) (s ++ [0]) = s ++ [0] :=
    List.take_of_length_le (by simp)
  have hcut : MatVar.toString (MatVar.ofString w s).2 ⟨some w.heap.length⟩ =
      .ok (s.takeWhile (fun c => c != 0)) := by
    have e := takeWhile_append_terminator s
    simp [MatVar.ofString, Mat_VarCreate, MatVar.toString, World.alloc, World.load,
      std_string.c_str, std_string.from_c_str, MAT_F_COMPLEX, Buffer.take, ht, e]
  refine ⟨⟨some w.heap.length⟩, ?_, hcut, ?_⟩
  · simp [MatVar.ofString, Mat_VarCreate, World.alloc]
  · intro h
    rw [hcut, ← takeWhile_append_terminator s, takeWhile_terminated s h]

/-- C3 at the text `hello`: it comes back as exactly `hello`. -/
theorem MatVar.string_roundtrip_hello :
    (0 : Byte) ∉ hello ∧
    ∃ mv, (MatVar.ofString World.init hello).1 = .ok mv ∧
      MatVar.toString (MatVar.ofString World.init hello).2 mv = .ok hello :=
  ⟨by decide,
    (MatVar.string_roundtrip World.init hello).imp (fun _ h => ⟨h.1, h.2.2 (by decide)⟩)⟩

/-- C3 fails on a text with a terminator char inside: the three chars `a`, `\0`, `b` are stored whole and come back as the single char `a`. -/
theorem MatVar.string_roundtrip_cut_at_nul :
    (MatVar.ofString World.init a_nul_b).1 = .ok ⟨some 0⟩ ∧
    MatVar.toString (MatVar.ofString World.init a_nul_b).2 ⟨some 0⟩ = .ok [97] ∧
    MatVar.toString (MatVar.ofString World.init a_nul_b).2 ⟨some 0⟩ ≠ .ok a_nul_b := by
  decide

/-! ## Conversions that must be refused -/

/-- C10: a record built from a text is refused by `operator mat`, and a record built from a matrix is refused by `operator std::string`, each with a `matiocpp_castexception`. -/
theorem MatVar.text_matrix_cross_cast (w : World) (s : std_string) (m : mat) :
    (∃ mv, (MatVar.ofString w s).1 = .ok mv ∧
      MatVar.toMat (MatVar.ofString w s).2 mv =
        .error (.matiocpp_castexception "Cannot be cast to mat: wrong type")) ∧
    (∃ mv, (MatVar.ofMat w m).1 = .ok mv ∧
      MatVar.toString (MatVar.ofMat w m).2 mv =
        .error (.matiocpp_castexception "Cannot be cast to string: wrong type")) := by
  refine ⟨⟨⟨some w.heap.length⟩, ?_, ?_⟩, ⟨⟨some w.heap.length⟩, ?_, ?_⟩⟩
  · simp [MatVar.ofString, Mat_VarCreate, World.alloc]
  · simp [MatVar.ofString, Mat_VarCreate, MatVar.toMat, World.alloc, World.load]
  · simp [MatVar.ofMat, Mat_VarCreate, World.alloc]
  · simp [MatVar.ofMat, Mat_VarCreate, MatVar.toString, World.alloc, World.load]

/-- C4, as the code has it: on a null handle the conversions to `vec`, `mat` and `std::string` raise `matiocpp_castexception("Can't cast not-instantiate")`, while the conversions to `Cell` and `Struct` raise the general `matiocpp_exception("Cannot dereference null pointer!")` of `operator->`. -/
theorem MatVar.null_conversions (w : World) (k : Int) :
    MatVar.toVec w MatVar.empty = .error (.matiocpp_castexception "Can't cast not-instantiate") ∧
    MatVar.toMat w MatVar.empty = .error (.matiocpp_castexception "Can't cast not-instantiate") ∧
    MatVar.toString w MatVar.empty =
      .error (.matiocpp_castexception "Can't cast not-instantiate") ∧
    MatVar.toCell w MatVar.empty k =
      .error (.matiocpp_exception "Cannot dereference null pointer!") ∧
    MatVar.toStruct w MatVar.empty =
      .error (.matiocpp_exception "Cannot dereference null pointer!") :=
  ⟨rfl, rfl, rfl, rfl, rfl⟩

/-- C4 fails for the conversion to `Cell` (and likewise to `Struct`): on a null handle it raises the general exception, not the "not instantiated" cast exception. -/
theorem MatVar.null_toCell_not_castexception :
    MatVar.toCell World.init MatVar.empty 0 =
      .error (.matiocpp_exception "Cannot dereference null pointer!") ∧
    MatVar.toCell World.init MatVar.empty 0 ≠
      .error (.matiocpp_castexception "Can't cast not-instantiate") ∧
    MatVar.toStruct World.init MatVar.empty ≠
      .error (.matiocpp_castexception "Can't cast not-instantiate") := by
  decide

/-- The type test of `operator vec` refuses a record exactly when both tags differ from double precision. -/
theorem MatVar.toVec_wrong_type_iff (w : World) (a : Nat) (r : matvar_t)
    (h : w.load a = some r) :
    MatVar.toVec w ⟨some a⟩ = .error (.matiocpp_castexception "Cannot be cast to vec: wrong type")
      ↔ (r.data_type ≠ .MAT_T_DOUBLE ∧ r.class_type ≠ .MAT_C_DOUBLE) := by
  unfold MatVar.toVec
  simp only [h]
  constructor
  · intro e
    by_contra hc
    rw [if_neg hc] at e
    split at e
    · simp at e
    · split at e
      · simp at e
      · unfold vec.copy_aux_mem at e
        split at e
        · simp at e
        · split at e
          · split at e <;> simp at e
          · simp at e
  · intro hc
    rw [if_pos hc]

/-- C5 at a record whose class tag is single precision and whose storage tag is double precision: `operator vec` raises nothing and returns the two stored values; and at a record whose class tag is double precision over 8-bit storage it does not raise the cast exception either. -/
theorem MatVar.toVec_accepts_one_matching_tag :
    single_class_world.load 0 =
      some { name := none, class_type := .MAT_C_SINGLE, data_type := .MAT_T_DOUBLE, rank := 2,
             dims := [1, 2], isComplex := false, data := .doubles [⟨1⟩, ⟨2⟩], fieldnames := [] } ∧
    MatVar.toVec single_class_world ⟨some 0⟩ = .ok [⟨1⟩, ⟨2⟩] ∧
    MatVar.toVec byte_storage_world ⟨some 0⟩ = .error .fault := by
  decide

/-- C6: the index-vector overloads of `Cell::set` and `Cell::get` call themselves, so no amount of fuel makes either return, whatever the container, the index vector and the value. -/
theorem Cell.set_idx_get_idx_never_return (fuel : Nat) (w : World) (c : Cell) (idx : List Int)
    (v : MatVar) :
    Cell.set_idx fuel w c idx v = none ∧ Cell.get_idx fuel w c idx = none := by
  induction fuel with
  | zero => exact ⟨rfl, rfl⟩
  | succ n ih => simpa [Cell.set_idx, Cell.get_idx] using ih

/-- What C6 expects at the container `Cell c({2, 3})` and the index vector (2, 1): the flattening rule gives the linear index 1, and `set(1, v)` and `get(1)` both return. -/
theorem Cell.two_by_three_linear :
    Cell.new World.init [2, 3] true = (.ok two_by_three, two_by_three_world) ∧
    Mat_CalcSingleSubscript 2 [2, 3] [2, 1] = 1 ∧
    (Cell.set two_by_three_world two_by_three 1 ⟨some 1⟩).1 = .ok () ∧
    Cell.get two_by_three_world two_by_three 1 = .ok ⟨some 1⟩ := by
  decide

/-! ## Cell containers -/

theorem foldl_set_length (x : Ptr) (l : List Nat) (ps : List Ptr) :
    (l.foldl (fun ps j => ps.set j x) ps).length = ps.length := by
  induction l generalizing ps with
  | nil => rfl
  | cons j l ih => simp [List.foldl, ih]

theorem foldl_set_getElem (x : Ptr) (l : List Nat) (ps : List Ptr) (i : Nat)
    (hi : i < ps.length) (h : ps[i]? = some x ∨ i ∈ l) :
    (l.foldl (fun ps j => ps.set j x) ps)[i]? = some x := by
  induction l generalizing ps with
  | nil => simpa using h
  | cons j l ih =>
    simp only [List.foldl]
    apply ih
    · simpa using hi
    · by_cases hj : j = i
      · left; subst hj; simp [hi]
      · rcases h with h | h
        · left; simp [List.getElem?_set, hj, h]
        · right
          rcases List.mem_cons.mp h with h | h
          · exact absurd h.symm hj
          · exact h

theorem getElem?_append_length {α : Type} (H : List α) (x : α) (rest : List α) :
    (H ++ x :: rest)[H.length]? = some x := by
  induction H with
  | nil => simp
  | cons a t ih => simpa using ih

theorem set_append_length {α : Type} (H : List α) (x y : α) (rest : List α) :
    (H ++ x :: rest).set H.length y = H ++ y :: rest := by
  induction H with
  | nil => rfl
  | cons a t ih => simp

theorem World.with_slots_load (w0 : World) (H : List (Option matvar_t)) (r : matvar_t)
    (rest : List (Option matvar_t)) (ps : List Ptr) :
    (World.with_slots w0 H r rest ps).load H.length = some { r with data := .slots ps } := by
  unfold World.with_slots World.load
  rw [getElem?_append_length]
  rfl

theorem Mat_VarSetCell_with_slots (w0 : World) (H : List (Option matvar_t)) (r : matvar_t)
    (rest : List (Option matvar_t)) (ps : List Ptr) (i : Nat) (b : Ptr)
    (hr : 1 ≤ r.rank) (hi : i < r.dims.prod) (hl : i < ps.length) :
    (Mat_VarSetCell (World.with_slots w0 H r rest ps) (some H.length) i b).1 =
      World.with_slots w0 H r rest (ps.set i b) := by
  have hr2 : ¬ r.rank < 1 := by omega
  simp only [Mat_VarSetCell, World.with_slots_load, hr2, hi, hl, if_false, and_self, if_true]
  unfold World.with_slots World.store
  simp only [set_append_length]

theorem Cell.fill_loop_with_slots (w0 : World) (H : List (Option matvar_t)) (r : matvar_t)
    (rest : List (Option matvar_t)) (b : Ptr) (hr : 1 ≤ r.rank) (l : List Nat) (ps : List Ptr)
    (hl : ∀ i ∈ l, i < r.dims.prod ∧ i < ps.length) :
    l.foldl (fun w i => (Mat_VarSetCell w (some H.length) i b).1)
        (World.with_slots w0 H r rest ps) =
      World.with_slots w0 H r rest (l.foldl (fun ps j => ps.set j b) ps) := by
  induction l generalizing ps with
  | nil => rfl
  | cons j l ih =>
    have hj := hl j (by simp)
    simp only [List.foldl]
    rw [Mat_VarSetCell_with_slots w0 H r rest ps j b hr hj.1 hj.2]
    apply ih
    intro i hi
    have := hl i (by simp [hi])
    simpa using this

theorem getElem?_append_length_succ {α : Type} (H : List α) (x y : α) (rest : List α) :
    (H ++ x :: y :: rest)[H.length + 1]? = some y := by
  induction H with
  | nil => simp
  | cons a t ih => simpa using ih

theorem range_map_getD {β : Type} (l : List Nat) (f : Nat → β) :
    (List.range l.length).map (fun i => f (l.getD i 0)) = l.map f := by
  apply List.ext_getElem
  · simp
  · intro i h1 h2
    have hi : i < l.length := by simpa using h1
    simp [List.getElem?_eq_getElem hi]

theorem to_int_emod (n : Nat) : to_int n % 4294967296 = (n : Int) % 4294967296 := by
  unfold to_int wrap_int
  omega

theorem prod_map_to_int_emod (dims : List Nat) :
    (dims.map to_int).prod % 4294967296 = ((dims.prod : Nat) : Int) % 4294967296 := by
  induction dims with
  | nil => rfl
  | cons a t ih =>
    rw [List.map_cons, List.prod_cons, List.prod_cons, Nat.cast_mul, Int.mul_emod, ih,
      to_int_emod, ← Int.mul_emod]

theorem wrap_int_prod_map_to_int (dims : List Nat) (h : dims.prod < 2147483648) :
    wrap_int (dims.map to_int).prod = (dims.prod : Int) := by
  rw [wrap_int_congr _ _ (prod_map_to_int_emod dims)]
  exact wrap_int_of_range _ (by omega) (by omega)

theorem pair_of_fst {α β : Type} {p : α × β} {a : α} (h : p.1 = a) : p = (a, p.2) := by
  cases p
  simp only at h
  rw [h]

theorem vector_data_of_ne_nil (dims : List Nat) (hd : dims ≠ []) : vector_data dims = some dims := by
  cases dims with
  | nil => exact absurd rfl hd
  | cons a t => rfl

theorem Cell.new_fill_result (w : World) (dims : List Nat) (hd : dims ≠ [])
    (hn : ¬ to_int dims.length < 0) :
    (Cell.new w dims true).1 =
      .ok { _mptr := ⟨some w.heap.length⟩, _ndims := to_int dims.length,
            _idims := (List.range (to_size_t (to_int dims.length))).map
              (fun i => to_int (dims.getD i 0)),
            _nelem := wrap_int ((List.range (to_size_t (to_int dims.length))).map
              (fun i => to_int (dims.getD i 0))).prod,
            _dims := dims } := by
  simp only [Cell.new, vector_data_of_ne_nil dims hd, if_neg hn, Mat_VarCreate, World.alloc,
    MatVar.destroy_eq, MatVar.ofMat, mat.zeros, mat.memptr, MatVar.ofPtr, MAT_F_COMPLEX]
  simp

theorem Cell.new_fill_closed_form (w : World) (dims : List Nat) (hd : dims ≠ [])
    (hlen : dims.length < 2147483648) (hprod : dims.prod < 2147483648) (hn : 0 < dims.prod) :
    Cell.new w dims true =
      (.ok { _mptr := ⟨some w.heap.length⟩, _ndims := (dims.length : Int),
             _idims := dims.map to_int, _nelem := (dims.prod : Int), _dims := dims },
        World.with_slots w w.heap (cell_record dims []) [some placeholder_record]
          ((List.range dims.prod).foldl (fun ps j => ps.set j (some (w.heap.length + 1)))
            (List.replicate dims.prod none))) := by
  have hr : 1 ≤ (cell_record dims []).rank := by
    cases dims with
    | nil => exact absurd rfl hd
    | cons a t => simp [cell_record]
  have hloop := Cell.fill_loop_with_slots w w.heap (cell_record dims []) [some placeholder_record]
    (some (w.heap.length + 1)) hr (List.range dims.prod) (List.replicate dims.prod none)
    (by intro i hi; simpa [cell_record] using hi)
  have hw : ({ w with heap := w.heap ++ [some (cell_record dims (List.replicate dims.prod none))]
                ++ [some placeholder_record] } : World) =
      World.with_slots w w.heap (cell_record dims []) [some placeholder_record]
        (List.replicate dims.prod none) := by
    simp [World.with_slots, cell_record]
  have h1 : to_int dims.length = (dims.length : Int) := to_int_of_lt _ hlen
  have h2 : to_size_t (dims.length : Int) = dims.length := to_size_t_of_nat _ (by omega)
  have h3 : ¬ ((dims.length : Int) < 0) := by omega
  have h4 : wrap_int (dims.map to_int).prod = (dims.prod : Int) :=
    wrap_int_prod_map_to_int dims hprod
  have h5 : to_size_t (dims.prod : Int) = dims.prod := to_size_t_of_nat _ (by omega)
  simp only [Cell.new, h1, h2, if_neg h3, range_map_getD, h4, h5, Int.toNat_ofNat,
    vector_data_of_ne_nil dims hd, Mat_VarCreate, World.alloc, MatVar.destroy_eq, MatVar.ofMat,
    mat.zeros, mat.memptr, Cell.fill_loop, MatVar.ofPtr, MAT_F_COMPLEX]
  simp [hn]
  rw [← hloop, ← hw]
  simp [cell_record, placeholder_record]

/-- C8, as the code has it: a `Cell` built with prefill from a non-empty shape of fewer than `2^31` extents whose product is below `2^31` reports that product as `nelems()` and the number of extents as `ndims()`, and `get(i)` returns for every `i < nelems()` a handle to a live empty placeholder, a 0-by-0 real matrix. -/
theorem Cell.prefilled_slots_retrievable (w : World) (dims : List Nat) (hd : dims ≠ [])
    (hlen : dims.length < 2147483648) (hprod : dims.prod < 2147483648) :
    ∃ c w', Cell.new w dims true = (.ok c, w') ∧
      c.nelems = (dims.prod : Int) ∧ c.ndims = (dims.length : Int) ∧
      ∀ i : Nat, (i : Int) < c.nelems →
        ∃ mv, Cell.get w' c i = .ok mv ∧ mv.is_empty_placeholder w' = true ∧
          MatVar.toMat w' mv = .ok (mat.zeros 0 0) := by
  have h1 : to_int dims.length = (dims.length : Int) := to_int_of_lt _ hlen
  have h2 : to_size_t (dims.length : Int) = dims.length := to_size_t_of_nat _ (by omega)
  have h3 : ¬ ((dims.length : Int) < 0) := by omega
  have h4 : wrap_int (dims.map to_int).prod = (dims.prod : Int) :=
    wrap_int_prod_map_to_int dims hprod
  rcases Nat.eq_zero_or_pos dims.prod with hn | hn
  · have hfst := Cell.new_fill_result w dims hd (by rw [h1]; exact h3)
    rw [h1, h2, range_map_getD, h4] at hfst
    refine ⟨⟨⟨some w.heap.length⟩, (dims.length : Int), dims.map to_int, (dims.prod : Int), dims⟩,
      (Cell.new w dims true).2, pair_of_fst hfst, rfl, rfl, ?_⟩
    intro i hi
    simp only [Cell.nelems, hn] at hi
    omega
  · refine ⟨_, _, Cell.new_fill_closed_form w dims hd hlen hprod hn, rfl, rfl, ?_⟩
    intro i hi
    simp only [Cell.nelems] at hi
    have hi : i < dims.prod := by omega
    have hslot := foldl_set_getElem (some (w.heap.length + 1)) (List.range dims.prod)
      (List.replicate dims.prod none) i (by simpa using hi) (Or.inr (by simpa using hi))
    have hcell := World.with_slots_load w w.heap (cell_record dims []) [some placeholder_record]
      ((List.range dims.prod).foldl (fun ps j => ps.set j (some (w.heap.length + 1)))
        (List.replicate dims.prod none))
    have hph : (World.with_slots w w.heap (cell_record dims []) [some placeholder_record]
      ((List.range dims.prod).foldl (fun ps j => ps.set j (some (w.heap.length + 1)))
        (List.replicate dims.prod none))).load (w.heap.length + 1) = some placeholder_record := by
      unfold World.with_slots World.load
      rw [getElem?_append_length_succ]
      rfl
    have hnot : ¬ dims.prod ≤ i := by omega
    have h5 : to_size_t (dims.prod : Int) = dims.prod := to_size_t_of_nat _ (by omega)
    have hget : Mat_VarGetCell
        (World.with_slots w w.heap (cell_record dims []) [some placeholder_record]
          ((List.range dims.prod).foldl (fun ps j => ps.set j (some (w.heap.length + 1)))
            (List.replicate dims.prod none))) (some w.heap.length) i =
        some (w.heap.length + 1) := by
      simp only [Mat_VarGetCell, hcell]
      simp [cell_record, hi, List.getD_eq_getElem?_getD, hslot]
    have hz : to_size_t (to_int 0) = 0 := by decide
    refine ⟨⟨some (w.heap.length + 1)⟩, ?_, ?_, ?_⟩
    · simp only [Cell.get, hget, h5]
      simp [hnot, MatVar.ofPtr]
    · simp only [MatVar.is_empty_placeholder, hph]
      simp [placeholder_record]
    · simp only [MatVar.toMat, hph]
      simp [placeholder_record, mat.copy_aux_mem, mat.zeros, hz]

/-- C8 at the shape (2, 3): six slots, each of them retrievable and holding an empty placeholder. -/
theorem Cell.prefilled_two_by_three :
    ([2, 3] : List Nat) ≠ [] ∧ ([2, 3] : List Nat).length < 2147483648 ∧
    ([2, 3] : List Nat).prod < 2147483648 ∧
    ∃ c w', Cell.new World.init [2, 3] true = (.ok c, w') ∧
      c.nelems = (([2, 3] : List Nat).prod : Int) ∧
      c.ndims = (([2, 3] : List Nat).length : Int) ∧
      ∀ i : Nat, (i : Int) < c.nelems →
        ∃ mv, Cell.get w' c i = .ok mv ∧ mv.is_empty_placeholder w' = true ∧
          MatVar.toMat w' mv = .ok (mat.zeros 0 0) :=
  ⟨by decide, by decide, by decide,
    Cell.prefilled_slots_retrievable World.init [2, 3] (by decide) (by decide) (by decide)⟩

/-- C8 fails at the shape (4294967296, 1): the product is `2^32`, `nelems()` is 0 and `get(0)` is refused. It fails at a shape of `2^32 + 1` extents as well: `ndims()` is 1. -/
theorem Cell.prefilled_counts_wrap :
    (Cell.new World.init [4294967296, 1] true).1 = .ok wrapped_extent_cell ∧
    wrapped_extent_cell.nelems = 0 ∧ ([4294967296, 1] : List Nat).prod = 4294967296 ∧
    Cell.get (Cell.new World.init [4294967296, 1] true).2 wrapped_extent_cell 0 =
      .error (.matiocpp_exception "Out of bounds") ∧
    (Cell.new World.init long_shape true).1 = .ok wrapped_rank_cell ∧
    wrapped_rank_cell.ndims = 1 ∧ long_shape.length = 4294967297 := by
  have hlen : long_shape.length = 4294967297 := by
    unfold long_shape
    rw [List.length_replicate]
  have hne : long_shape ≠ [] := by
    intro e
    have e2 := congrArg List.length e
    rw [hlen] at e2
    exact absurd e2 (by decide)
  have hget : long_shape.getD 0 0 = 1 := by
    unfold long_shape
    rw [List.getD_eq_getElem?_getD, List.getElem?_replicate]
    decide
  refine ⟨?_, rfl, by decide, ?_, ?_, rfl, hlen⟩
  · rw [Cell.new_fill_result World.init [4294967296, 1] (by decide) (by decide)]
    decide
  · simp only [Cell.get, wrapped_extent_cell]
    decide
  · have h := Cell.new_fill_result World.init long_shape hne (by rw [hlen]; decide)
    rw [hlen] at h
    rw [h]
    have hr : List.range (to_size_t (to_int 4294967297)) = [0] := by decide
    rw [hr]
    simp only [List.map_cons, List.map_nil, hget]
    unfold wrapped_rank_cell
    have h1 : to_int 4294967297 = 1 := by decide
    have h2 : to_int 1 = 1 := by decide
    have h3 : wrap_int ([(1 : Int)]).prod = 1 := by decide
    rw [h1, h2, h3]
    rfl

/-! ## Bounds of `set` -/

theorem Cell.cell_set_beyond_nelem (w : World) (c : Cell) (i : Nat) (v : MatVar)
    (h : to_size_t c._nelem ≤ i) :
    Cell.set w c i v = (.error (.matiocpp_exception "Out of bounds"), w) := by
  simp [Cell.set, h]

theorem Struct.struct_set_beyond_nelem (w : World) (s : Struct) (nam : std_string) (i : Nat) (v : MatVar)
    (h : to_size_t s._nelem ≤ i) :
    Struct.set w s nam i v = (.error (.matiocpp_exception "Out of bounds"), w) := by
  simp [Struct.set, h]

theorem Cell.cell_new_nelem (w w' : World) (dims : List Nat) (fill : Bool) (c : Cell)
    (h : Cell.new w dims fill = (.ok c, w')) :
    c._nelem = wrap_int ((List.range (to_size_t (to_int dims.length))).map
      (fun i => to_int (dims.getD i 0))).prod := by
  unfold Cell.new at h
  simp only [MatVar.destroy_eq] at h
  split at h
  · simp at h
  · split at h
    · simp at h
    · split at h
      · split at h
        · simp at h
        · simp only [Prod.mk.injEq, Except.ok.injEq] at h
          rw [← h.1]
      · simp only [Prod.mk.injEq, Except.ok.injEq] at h
        rw [← h.1]

theorem Cell.cell_new_nelem_small (w w' : World) (dims : List Nat) (fill : Bool) (c : Cell)
    (h : Cell.new w dims fill = (.ok c, w')) (hlen : dims.length < 2147483648)
    (hprod : dims.prod < 2147483648) : c._nelem = (dims.prod : Int) := by
  rw [Cell.cell_new_nelem w w' dims fill c h, to_int_of_lt _ hlen,
    to_size_t_of_nat _ (by omega), range_map_getD, wrap_int_prod_map_to_int dims hprod]

theorem Struct.struct_new_nelem (w w' : World) (dims : List Nat) (fields : List std_string) (s : Struct)
    (h : Struct.new w dims fields = (.ok s, w')) :
    s._nelem = wrap_int ((List.range (to_size_t (to_int dims.length))).map
      (fun i => to_int (dims.getD i 0))).prod := by
  unfold Struct.new at h
  simp only [MatVar.destroy_eq] at h
  split at h
  · simp at h
  · split at h
    · simp at h
    · simp only [Prod.mk.injEq, Except.ok.injEq] at h
      rw [← h.1]

theorem Struct.ofMatVar_nelem (w : World) (mv : MatVar) (s : Struct)
    (h : Struct.ofMatVar w mv = .ok s) : s._nelem = wrap_int (s._dims.map to_int).prod := by
  unfold Struct.ofMatVar at h
  split at h
  · simp at h
  · split at h
    · simp at h
    · split at h
      · simp only at h
        split at h <;> simp at h
      · simp only at h
        split at h
        · simp at h
        · simp only [Except.ok.injEq] at h
          rw [← h]

/-- C7 at a `Cell` rebuilt from a `MatVar`: `Cell(MatVar&)` never assigns `_nelem`, so with the member holding 7 over a one-slot cell record, `set(3, v)` passes the bounds test, reaches the library and raises "could not set cell" in place of "Out of bounds". -/
theorem Cell.recast_set_beyond_count :
    Cell.new World.init [1, 1] true =
      (.ok { _mptr := ⟨some 0⟩, _ndims := 2, _idims := [1, 1], _nelem := 1, _dims := [1, 1] },
        one_slot_world) ∧
    MatVar.toCell one_slot_world ⟨some 0⟩ 7 = .ok one_slot_recast ∧
    one_slot_recast._dims.prod = 1 ∧
    (Cell.set one_slot_world one_slot_recast 3 ⟨some 1⟩).1 =
      .error (.matiocpp_exception "could not set cell") := by
  decide

/-! ## File contexts -/

theorem Writer.writer_destroy_nonnull (w : World) (h : Nat) : Writer.destroy w ⟨some h⟩ = w := rfl

theorem Reader.reader_destroy_nonnull (w : World) (h : Nat) : Reader.destroy w ⟨some h⟩ = w := rfl

/-- C9 at `Writer wr("out.mat")` and `Reader rd("out.mat")`: each constructor returns an open context, and each destructor leaves the world as it was, the context still open and never reached by `Mat_Close`. -/
theorem Writer_Reader_destroy_keep_open :
    Writer.new World.init "out.mat" none MAT_FT_DEFAULT = (.ok ⟨some 0⟩, out_mat_world) ∧
    out_mat_world.isOpen (some 0) = true ∧
    Writer.destroy out_mat_world ⟨some 0⟩ = out_mat_world ∧
    (Writer.destroy out_mat_world ⟨some 0⟩).isOpen (some 0) = true ∧
    (Writer.destroy out_mat_world ⟨some 0⟩).closeCalls (some 0) = 0 ∧
    Reader.new out_mat_world "out.mat" = (.ok ⟨some 1⟩, out_mat_read_world) ∧
    out_mat_read_world.isOpen (some 1) = true ∧
    Reader.destroy out_mat_read_world ⟨some 1⟩ = out_mat_read_world ∧
    (Reader.destroy out_mat_read_world ⟨some 1⟩).isOpen (some 1) = true ∧
    (Reader.destroy out_mat_read_world ⟨some 1⟩).closeCalls (some 1) = 0 := by
  decide

/-! ## Field names of a `Struct` -/

theorem Struct.new_of_shape (w : World) (dims : List Nat) (F : List std_string)
    (hd : dims ≠ []) (hn : ¬ to_int dims.length < 0) :
    (Struct.new w dims F).1 =
      .ok { _mptr := ⟨some w.heap.length⟩, _dims := [], _ndims := to_int dims.length,
            _nelem := wrap_int ((List.range (to_size_t (to_int dims.length))).map
              (fun i => to_int (dims.getD i 0))).prod,
            _idims := (List.range (to_size_t (to_int dims.length))).map
              (fun i => to_int (dims.getD i 0)),
            _fields := F, _nfields := F.length } := by
  simp [Struct.new, vector_data_of_ne_nil dims hd, hn, Mat_VarCreateStruct, World.alloc,
    MatVar.ofPtr, MatVar.destroy_eq]

/-- On `Struct s({1, 1}, {"ab", "c"})`: `hasfield("ab")` and `hasfield("c")` hold, while `hasfield("AB")`, `hasfield("a")`, `hasfield("abc")` and `hasfield("")` do not. -/
theorem Struct.hasfield_ab_c_cases :
    ab_c_struct.hasfield [97, 98] = true ∧ ab_c_struct.hasfield [99] = true ∧
    ab_c_struct.hasfield [65, 66] = false ∧ ab_c_struct.hasfield [97] = false ∧
    ab_c_struct.hasfield [97, 98, 99] = false ∧ ab_c_struct.hasfield [] = false := by
  decide

end matiocpp
